import Mathlib

/-!
# Verification of the `simple_fact` invoicing core

Shallow embedding of the sales/numbering core of the repository
(`src/database.py`, `src/facturador.py`) and proofs of the specification
claims about it.

Conventions:
* SQLite tables are embedded as Lists of row structures, kept in rowid
  (insertion) order; `AUTOINCREMENT` primary keys are modelled by a
  sequence counter carried in the state.
* Python `float` money amounts are modelled as `ℚ` (the computations at
  stake are sums, products and divisions by 100, which the claims treat
  algebraically).
* `datetime.now()` is passed in explicitly (`año` / `now` parameters).
* A fallible external effect (PDF rendering, file removal) is modelled by
  an explicit success/failure input.
-/

namespace SimpleFact

/-! ## Numbering series (`database.py`, table `series` and
`Database.obtener_siguiente_numero` / `Database.generar_numero_documento`) -/

/-- One row of the `series` table:
`(id, tipo, serie, ultimo_numero, anio)` with `UNIQUE(tipo, serie, anio)`.
The `id` column is never read by the code, so it is not carried. -/
structure SerieRow where
  tipo : String
  serie : String
  ultimo_numero : Nat
  anio : Nat
deriving Repr, DecidableEq

/-- The `series` table, in rowid order. -/
abbrev SeriesState := List SerieRow

/-- The `WHERE tipo = ? AND serie = ? AND anio = ?` condition shared by the
queries of `obtener_siguiente_numero`. -/
def matchesKey (tipo serie : String) (anio : Nat) (r : SerieRow) : Bool :=
  r.tipo = tipo && r.serie = serie && r.anio = anio

/-- Query `SELECT ultimo_numero FROM series WHERE tipo = ? AND serie = ? AND anio = ?`
followed by `fetchone()`: the first matching row, if any. -/
def lookupSerie (st : SeriesState) (tipo serie : String) (anio : Nat) :
    Option SerieRow :=
  st.find? (matchesKey tipo serie anio)

/-- Statement `UPDATE series SET ultimo_numero = ? WHERE tipo = ? AND serie = ? AND anio = ?`:
every matching row gets the new value (the `UNIQUE` constraint keeps
at most one match in reachable states, but the SQL semantics is total). -/
def updateSerie (st : SeriesState) (tipo serie : String) (anio n : Nat) :
    SeriesState :=
  st.map (fun r =>
    if matchesKey tipo serie anio r then
      { r with ultimo_numero := n }
    else r)

/-- Embeds `Database.obtener_siguiente_numero(tipo, serie)` with the current year
passed explicitly: looks the `(tipo, serie, anio)` key up; if present,
increments its `ultimo_numero` and returns the new value; if absent,
inserts the key with value 1 and returns 1.  The `conn.commit()` at the
end makes the whole call one transaction: a crashed call leaves the input
state unchanged and returns nothing, which the state-passing style
captures by simply not performing the call. -/
def obtener_siguiente_numero (st : SeriesState) (tipo serie : String)
    (anio_actual : Nat) : Nat × SeriesState :=
  match lookupSerie st tipo serie anio_actual with
  | some row =>
      let nuevo_numero := row.ultimo_numero + 1
      (nuevo_numero, updateSerie st tipo serie anio_actual nuevo_numero)
  | none =>
      (1, st ++ [⟨tipo, serie, 1, anio_actual⟩])

/-- Python `f"{n:04d}"` for a natural number: decimal digits, left-padded
with zeros to at least four characters. -/
def pad4 (n : Nat) : String :=
  let s := toString n
  String.mk (List.replicate (4 - s.length) '0') ++ s

/-- The per-type prefix table of `Database.generar_numero_documento`
(`prefijos.get(tipo, '')`). -/
def prefijos (tipo : String) : String :=
  if tipo = "presupuesto" then "P"
  else if tipo = "albaran" then "AL"
  else if tipo = "factura" then ""
  else ""

/-- Embeds `Database.generar_numero_documento(tipo, serie)`: draws the next
sequence number and formats `f"{prefijo}{serie}-{año}-{numero:04d}"`. -/
def generar_numero_documento (st : SeriesState) (tipo serie : String)
    (anio : Nat) : String × SeriesState :=
  let r := obtener_siguiente_numero st tipo serie anio
  (prefijos tipo ++ serie ++ "-" ++ toString anio ++ "-" ++ pad4 r.1, r.2)

/-- The value persisted for a key: `ultimo_numero` of the first matching
row, `none` when the key is absent. -/
def persistedUltimo (st : SeriesState) (tipo serie : String) (anio : Nat) :
    Option Nat :=
  (lookupSerie st tipo serie anio).map SerieRow.ultimo_numero

/-- Runs `n` successive calls of `obtener_siguiente_numero` on one key:
the list of returned values and the final state. -/
def runCalls (st : SeriesState) (tipo serie : String) (anio : Nat) :
    Nat → List Nat × SeriesState
  | 0 => ([], st)
  | n + 1 =>
      let r := obtener_siguiente_numero st tipo serie anio
      let rest := runCalls r.2 tipo serie anio n
      (r.1 :: rest.1, rest.2)

/-! ## The ventas data model (`database.py`, tables `clientes`, `ventas`,
`venta_items`, `documentos`) -/

/-- Embeds `Database.ESTADOS`: the possible states of a sale, in progression
order. -/
def ESTADOS : List String :=
  ["borrador", "presupuestado", "aceptado", "albaranado", "facturado", "pagado"]

/-- Rank of a state: its position in `ESTADOS` (used by the spec's
progression order; states outside the list have no rank). -/
def rankEstado (e : String) : Option Nat := ESTADOS.indexOf? e

/-- A row of the `ventas` table.  `cliente_id` is `Option` because the
code inserts `venta_data.get('cliente_id')`, which may be `None`;
timestamps are abstract `Nat` instants. -/
structure Venta where
  id : Nat
  cliente_id : Option Nat
  cliente_nombre : String
  cliente_nif : String
  cliente_direccion : String
  cliente_cp : String
  cliente_ciudad : String
  cliente_provincia : String
  base_imponible : ℚ
  total_iva : ℚ
  irpf_porcentaje : ℚ
  total_irpf : ℚ
  total : ℚ
  metodo_pago : String
  notas : String
  estado : String
  fecha_creacion : Nat
  fecha_modificacion : Nat
deriving Repr, DecidableEq

/-- A row of the `venta_items` table. -/
structure VentaItem where
  id : Nat
  venta_id : Nat
  descripcion : String
  cantidad : ℚ
  unidad : String
  precio_unitario : ℚ
  iva_porcentaje : ℚ
  subtotal : ℚ
deriving Repr, DecidableEq

/-- A row of the `documentos` table (`fecha_creacion` is never read back
by the code and is not carried). -/
structure Documento where
  id : Nat
  venta_id : Nat
  tipo : String
  numero : String
  fecha_emision : String
  fecha_validez : Option String
  ruta_pdf : Option String
deriving Repr, DecidableEq

/-- The embedded database: the four domain tables in rowid order plus the
`AUTOINCREMENT` counters (next id to hand out) for the three tables whose
`lastrowid` the code reads. -/
structure DB where
  ventas : List Venta
  venta_items : List VentaItem
  documentos : List Documento
  series : SeriesState
  seq_ventas : Nat
  seq_items : Nat
  seq_documentos : Nat
deriving Repr, DecidableEq

/-- The empty database right after `crear_tablas` (AUTOINCREMENT ids start
at 1). -/
def DB.empty : DB := ⟨[], [], [], [], 1, 1, 1⟩

/-- Query `SELECT * FROM ventas WHERE id = ?` with `fetchone()`. -/
def buscarVenta (db : DB) (venta_id : Nat) : Option Venta :=
  db.ventas.find? (fun v => v.id = venta_id)

/-- The field bundle passed to `Database.crear_venta` as `venta_data`
(dictionary keys of the `INSERT INTO ventas`, `.get` defaults applied by
the caller of the embedding). -/
structure VentaData where
  cliente_id : Option Nat
  cliente_nombre : String
  cliente_nif : String
  cliente_direccion : String
  cliente_cp : String
  cliente_ciudad : String
  cliente_provincia : String
  base_imponible : ℚ
  total_iva : ℚ
  irpf_porcentaje : ℚ
  total_irpf : ℚ
  total : ℚ
  metodo_pago : String
  notas : String
  estado : String
deriving Repr, DecidableEq

/-- One element of the `items` list passed to `Database.crear_venta`
(the dictionaries built by `AplicacionFacturador.agregar_item`). -/
structure ItemData where
  descripcion : String
  cantidad : ℚ
  unidad : String
  precio_unitario : ℚ
  iva : ℚ
  subtotal : ℚ
deriving Repr, DecidableEq

/-- Embeds `Database.crear_venta(venta_data, items)`: inserts the sale row and
one `venta_items` row per item, in order, and returns the new sale's id
(`cursor.lastrowid`).  The single `commit` at the end makes it one
transaction. -/
def crear_venta (db : DB) (venta_data : VentaData) (items : List ItemData)
    (now : Nat) : Nat × DB :=
  let venta_id := db.seq_ventas
  let v : Venta :=
    { id := venta_id
      cliente_id := venta_data.cliente_id
      cliente_nombre := venta_data.cliente_nombre
      cliente_nif := venta_data.cliente_nif
      cliente_direccion := venta_data.cliente_direccion
      cliente_cp := venta_data.cliente_cp
      cliente_ciudad := venta_data.cliente_ciudad
      cliente_provincia := venta_data.cliente_provincia
      base_imponible := venta_data.base_imponible
      total_iva := venta_data.total_iva
      irpf_porcentaje := venta_data.irpf_porcentaje
      total_irpf := venta_data.total_irpf
      total := venta_data.total
      metodo_pago := venta_data.metodo_pago
      notas := venta_data.notas
      estado := venta_data.estado
      fecha_creacion := now
      fecha_modificacion := now }
  let rows := (items.enum).map (fun p =>
    ({ id := db.seq_items + p.1
       venta_id := venta_id
       descripcion := p.2.descripcion
       cantidad := p.2.cantidad
       unidad := p.2.unidad
       precio_unitario := p.2.precio_unitario
       iva_porcentaje := p.2.iva
       subtotal := p.2.subtotal } : VentaItem))
  (venta_id,
    { db with
        ventas := db.ventas ++ [v]
        venta_items := db.venta_items ++ rows
        seq_ventas := db.seq_ventas + 1
        seq_items := db.seq_items + items.length })

/-- Result of `Database.obtener_venta`: the sale row, its `items` list
and its `documentos` dictionary.  The Python dict comprehension
`{d['tipo']: d for d in docs}` keeps, for each `tipo`, the last matching
row in iteration order; it is embedded as that lookup function. -/
structure VentaCompleta where
  venta : Venta
  items : List VentaItem
  documentos : String → Option Documento

/-- Embeds `Database.obtener_venta(venta_id)`: `None` when the id is unknown;
otherwise the row plus its items (`WHERE venta_id = ?`) and its documents
indexed by type.  `ORDER BY tipo` is a stable sort on `tipo`, so within a
`tipo` the dictionary keeps the last row in rowid order: the last element
of the filtered list. -/
def obtener_venta (db : DB) (venta_id : Nat) : Option VentaCompleta :=
  match buscarVenta db venta_id with
  | none => none
  | some v =>
      some
        { venta := v
          items := db.venta_items.filter (fun it => it.venta_id = venta_id)
          documentos := fun tipo =>
            (db.documentos.filter
              (fun d => d.venta_id = venta_id ∧ d.tipo = tipo)).getLast? }

/-- Embeds `Database.actualizar_estado_venta(venta_id, nuevo_estado)`:
`UPDATE ventas SET estado = ?, fecha_modificacion = CURRENT_TIMESTAMP
WHERE id = ?` — unconditional assignment of the new state to the matching
row(s). -/
def actualizar_estado_venta (db : DB) (venta_id : Nat) (nuevo_estado : String)
    (now : Nat) : DB :=
  { db with
      ventas := db.ventas.map (fun v =>
        if v.id = venta_id then
          { v with estado := nuevo_estado, fecha_modificacion := now }
        else v) }

/-- Embeds `Database.eliminar_venta(venta_id)` acting on the database and on the
disk (the set of existing file paths).  It first collects the non-null
`ruta_pdf` of the sale's documents, then deletes the sale row (the
`ON DELETE CASCADE` clauses delete its items and documents) and commits;
afterwards it removes each collected path from disk, swallowing any
`OSError` (`fallos` is the set of paths whose removal raises).  The Python
function has no `return` statement, so the call's value is `None`,
embedded as the `ret` field. -/
structure EliminarResult where
  db : DB
  disco : List String
  ret : Option (List String)
deriving Repr, DecidableEq

/-- The `rutas` list read by `eliminar_venta` before deleting. -/
def rutasDeVenta (db : DB) (venta_id : Nat) : List String :=
  (db.documentos.filter (fun d => d.venta_id = venta_id)).filterMap
    (fun d => d.ruta_pdf)

/-- See `EliminarResult`. -/
def eliminar_venta (db : DB) (disco : List String) (fallos : List String)
    (venta_id : Nat) : EliminarResult :=
  let rutas := rutasDeVenta db venta_id
  let db' : DB :=
    { db with
        ventas := db.ventas.filter (fun v => ¬ v.id = venta_id)
        venta_items := db.venta_items.filter (fun it => ¬ it.venta_id = venta_id)
        documentos := db.documentos.filter (fun d => ¬ d.venta_id = venta_id) }
  let disco' := disco.filter (fun p => ¬ (p ∈ rutas ∧ p ∉ fallos))
  { db := db', disco := disco', ret := none }

/-- Embeds `Database.registrar_documento(venta_id, tipo, numero, fecha_emision,
fecha_validez, ruta_pdf)`: upsert keyed on `(venta_id, tipo)` — when a row
for the pair exists, all its payload columns are overwritten with the
arguments (by the existing row's `id`); otherwise a fresh row is
inserted.  Returns the affected row's id. -/
def registrar_documento (db : DB) (venta_id : Nat) (tipo numero fecha_emision : String)
    (fecha_validez : Option String) (ruta_pdf : Option String) : Nat × DB :=
  match db.documentos.find? (fun d => d.venta_id = venta_id ∧ d.tipo = tipo) with
  | some existente =>
      (existente.id,
        { db with
            documentos := db.documentos.map (fun d =>
              if d.id = existente.id then
                { d with
                    numero := numero
                    fecha_emision := fecha_emision
                    fecha_validez := fecha_validez
                    ruta_pdf := ruta_pdf }
              else d) })
  | none =>
      (db.seq_documentos,
        { db with
            documentos := db.documentos ++
              [{ id := db.seq_documentos
                 venta_id := venta_id
                 tipo := tipo
                 numero := numero
                 fecha_emision := fecha_emision
                 fecha_validez := fecha_validez
                 ruta_pdf := ruta_pdf }]
            seq_documentos := db.seq_documentos + 1 })

/-- Embeds `Database.obtener_documento_de_venta(venta_id, tipo)`: first row for
the `(venta_id, tipo)` pair, if any. -/
def obtener_documento_de_venta (db : DB) (venta_id : Nat) (tipo : String) :
    Option Documento :=
  db.documentos.find? (fun d => d.venta_id = venta_id ∧ d.tipo = tipo)

/-! ## Totals calculator (`facturador.py`,
`AplicacionFacturador.actualizar_totales` and the identical computation
inlined in `AplicacionFacturador.guardar_y_generar`, lines 1126–1135) -/

/-- The four monetary totals computed by the application. -/
structure Totales where
  base_imponible : ℚ
  total_iva : ℚ
  total_irpf : ℚ
  total : ℚ
deriving Repr, DecidableEq

/-- Embeds `AplicacionFacturador.actualizar_totales` (the GUI label updates are
presentation only): `base_imponible = Σ subtotal`,
`total_iva = Σ subtotal·iva/100`, `total_irpf = base·irpf/100`,
`total = base + iva − irpf`.  The `float(entry.get())`-or-0 parse of the
withholding field is the caller's business; `irpf_porcentaje` is the
parsed value. -/
def actualizar_totales (items : List ItemData) (irpf_porcentaje : ℚ) : Totales :=
  let base_imponible := (items.map (fun item => item.subtotal)).sum
  let total_iva := (items.map (fun item => item.subtotal * item.iva / 100)).sum
  let total_irpf := base_imponible * irpf_porcentaje / 100
  { base_imponible := base_imponible
    total_iva := total_iva
    total_irpf := total_irpf
    total := base_imponible + total_iva - total_irpf }

/-- The item dictionary built by `AplicacionFacturador.agregar_item`:
`subtotal = cantidad * precio`. -/
def agregar_item_data (descripcion : String) (cantidad : ℚ) (unidad : String)
    (precio : ℚ) (iva : ℚ) : ItemData :=
  { descripcion := descripcion
    cantidad := cantidad
    unidad := unidad
    precio_unitario := precio
    iva := iva
    subtotal := cantidad * precio }

/-- Fresh recomputation of the totals from stored `venta_items` rows
(same formulas as `actualizar_totales`, read off the persisted columns). -/
def recomputarDesdeFilas (rows : List VentaItem) (irpf_porcentaje : ℚ) : Totales :=
  let base_imponible := (rows.map (fun r => r.subtotal)).sum
  let total_iva := (rows.map (fun r => r.subtotal * r.iva_porcentaje / 100)).sum
  let total_irpf := base_imponible * irpf_porcentaje / 100
  { base_imponible := base_imponible
    total_iva := total_iva
    total_irpf := total_irpf
    total := base_imponible + total_iva - total_irpf }

/-- The persistence step of `AplicacionFacturador.guardar_y_generar`
expressed against the ventas model of `database.py`: the totals are
recomputed from the current item list (lines 1126–1135) and stored, with
those very items, through `Database.crear_venta`. -/
def guardar_venta_con_totales (db : DB) (cliente : VentaData) (items : List ItemData)
    (irpf_porcentaje : ℚ) (now : Nat) : Nat × DB :=
  let t := actualizar_totales items irpf_porcentaje
  crear_venta db
    { cliente with
        base_imponible := t.base_imponible
        total_iva := t.total_iva
        irpf_porcentaje := irpf_porcentaje
        total_irpf := t.total_irpf
        total := t.total }
    items now

/-- Well-formedness of a database state: every row id is below its
table's AUTOINCREMENT counter.  `crear_tablas` gives it, and every
operation preserves it. -/
def DB.WF (db : DB) : Prop :=
  (∀ v ∈ db.ventas, v.id < db.seq_ventas) ∧
  (∀ it ∈ db.venta_items, it.id < db.seq_items ∧ it.venta_id < db.seq_ventas) ∧
  (∀ d ∈ db.documentos, d.id < db.seq_documentos ∧ d.venta_id < db.seq_ventas)

instance (db : DB) : Decidable db.WF := by
  unfold DB.WF; infer_instance

/-! ## Save-and-render flow (`facturador.py`,
`AplicacionFacturador.guardar_y_generar` and
`VentanaListaDocumentos._generar_nuevo_pdf`)

`guardar_y_generar` talks to the database through `guardar_documento`,
`actualizar_ruta_pdf` and `obtener_documento`, methods whose bodies are
not present under `src/` (the `database.py` in `src/` carries the ventas
variant of the same layer); they are modelled from the spec below.  The
numbering it uses, `Database.generar_numero_documento`, *is* in `src/`
and is the embedding above. -/

/-- A stored document record of the flow: the relevant subset of the
`documento_data` dictionary built by `guardar_y_generar`
(lines 1158–1179) plus the row id and the PDF path column. -/
structure DocRecord where
  id : Nat
  tipo : String
  numero : String
  fecha_emision : String
  fecha_validez : Option String
  base_imponible : ℚ
  total_iva : ℚ
  irpf_porcentaje : ℚ
  total_irpf : ℚ
  total : ℚ
  estado : String
  ruta_pdf : Option String
  items : List ItemData
deriving Repr, DecidableEq

/-- The state `guardar_y_generar` reads and writes: the numbering series
table and the document store. -/
structure FacState where
  series : SeriesState
  docs : List DocRecord
  seq_docs : Nat
deriving Repr, DecidableEq

/-- Modelled from the spec: `Database.guardar_documento(documento_data,
items)` is called by `guardar_y_generar` but its body is not under
`src/`; per the persistence contract it stores the document record with
its items as one unit and returns the new row id. -/
def guardar_documento (st : FacState) (tipo numero fecha_emision : String)
    (fecha_validez : Option String) (t : Totales) (irpf_porcentaje : ℚ)
    (estado : String) (items : List ItemData) : Nat × FacState :=
  (st.seq_docs,
    { st with
        docs := st.docs ++
          [{ id := st.seq_docs
             tipo := tipo
             numero := numero
             fecha_emision := fecha_emision
             fecha_validez := fecha_validez
             base_imponible := t.base_imponible
             total_iva := t.total_iva
             irpf_porcentaje := irpf_porcentaje
             total_irpf := t.total_irpf
             total := t.total
             estado := estado
             ruta_pdf := none
             items := items }]
        seq_docs := st.seq_docs + 1 })

/-- Modelled from the spec: `Database.actualizar_ruta_pdf(doc_id, ruta)`
(body not under `src/`) records the rendered file's path on the document
row. -/
def actualizar_ruta_pdf (st : FacState) (doc_id : Nat) (ruta : String) : FacState :=
  { st with
      docs := st.docs.map (fun d =>
        if d.id = doc_id then { d with ruta_pdf := some ruta } else d) }

/-- Modelled from the spec: `Database.obtener_documento(doc_id)` (body
not under `src/`): lookup of a stored document record by id. -/
def obtener_documento (st : FacState) (doc_id : Nat) : Option DocRecord :=
  st.docs.find? (fun d => d.id = doc_id)

/-- Embeds `obtener_ruta_documento(tipo, numero)` (`facturador.py`, lines
29–47): deterministic path
`<base>/<carpeta>/<anio>/<carpeta minus final s>_<numero with / replaced>.pdf`;
the `DOCUMENTOS_DIR` base and the current year are explicit inputs. -/
def obtener_ruta_documento (base : String) (tipo numero : String) (anio : Nat) :
    String :=
  let carpeta :=
    if tipo = "presupuesto" then "Presupuestos"
    else if tipo = "albaran" then "Albaranes"
    else if tipo = "factura" then "Facturas"
    else "Otros"
  base ++ "/" ++ carpeta ++ "/" ++ toString anio ++ "/" ++
    carpeta.dropRight 1 ++ "_" ++ (numero.replace "/" "-") ++ ".pdf"

/-- Outcome of `guardar_y_generar`: the final state and the error message
surfaced by the `except` branch, if the render failed. -/
structure GuardarResult where
  st : FacState
  documento_id : Nat
  numero : String
  error : Option String
deriving Repr, DecidableEq

/-- Embeds `AplicacionFacturador.guardar_y_generar` (fresh-document path,
`documento_origen_id = None`), with the render outcome an explicit input:
1. issue the formatted number (`generar_numero_documento`, committing the
   series increment);
2. recompute the totals from the item list;
3. store the document record with its items (`guardar_documento`);
4. attempt the render at the deterministic path: on success record the
   path (`actualizar_ruta_pdf`), on failure surface the error message and
   change nothing further. -/
def guardar_y_generar (st : FacState) (tipo serie : String) (anio : Nat)
    (items : List ItemData) (irpf_porcentaje : ℚ) (fecha_actual : String)
    (fecha_validez : Option String) (base : String) (render_ok : Bool) :
    GuardarResult :=
  let rn := generar_numero_documento st.series tipo serie anio
  let t := actualizar_totales items irpf_porcentaje
  let rg :=
    guardar_documento { st with series := rn.2 } tipo rn.1 fecha_actual
      fecha_validez t irpf_porcentaje "pendiente" items
  let ruta := obtener_ruta_documento base tipo rn.1 anio
  if render_ok then
    { st := actualizar_ruta_pdf rg.2 rg.1 ruta
      documento_id := rg.1
      numero := rn.1
      error := none }
  else
    { st := rg.2
      documento_id := rg.1
      numero := rn.1
      error := some "Error al generar PDF" }

/-- Embeds `VentanaListaDocumentos._generar_nuevo_pdf(doc)` on a stored record:
re-renders using the record's stored `numero` (no numbering call at all)
and, on success, records the path; on failure surfaces the error. -/
def generar_nuevo_pdf (st : FacState) (doc_id : Nat) (base : String)
    (anio : Nat) (render_ok : Bool) : FacState × Option String :=
  match obtener_documento st doc_id with
  | none => (st, none)
  | some doc =>
      let ruta := obtener_ruta_documento base doc.tipo doc.numero anio
      if render_ok then (actualizar_ruta_pdf st doc_id ruta, none)
      else (st, some "Error al generar PDF")

/-- At most one `documentos` row per `(venta_id, tipo)` pair: no two
distinct rows of the table share the key. -/
def AtMostOnePerTipo (docs : List Documento) : Prop :=
  docs.Pairwise (fun d₁ d₂ => ¬ (d₁.venta_id = d₂.venta_id ∧ d₁.tipo = d₂.tipo))

instance (docs : List Documento) : Decidable (AtMostOnePerTipo docs) := by
  unfold AtMostOnePerTipo; infer_instance

/-! ## Lemmas: numbering registry -/

theorem matchesKey_set_ultimo (t s : String) (a n : Nat) (r : SerieRow) :
    matchesKey t s a { r with ultimo_numero := n } = matchesKey t s a r := rfl

theorem lookupSerie_updateSerie (st : SeriesState) (t s : String) (a n : Nat) :
    lookupSerie (updateSerie st t s a n) t s a =
      (lookupSerie st t s a).map (fun r => { r with ultimo_numero := n }) := by
  induction st with
  | nil => rfl
  | cons r rest ih =>
      simp only [lookupSerie, updateSerie, List.map_cons, List.find?_cons] at *
      by_cases h : matchesKey t s a r
      · simp [h, matchesKey_set_ultimo]
      · simp only [Bool.not_eq_true] at h
        simp [h, matchesKey_set_ultimo, ih]

theorem persistedUltimo_after (st : SeriesState) (t s : String) (a : Nat) :
    persistedUltimo (obtener_siguiente_numero st t s a).2 t s a =
      some (obtener_siguiente_numero st t s a).1 := by
  unfold obtener_siguiente_numero
  cases hl : lookupSerie st t s a with
  | some row =>
      simp [persistedUltimo, lookupSerie_updateSerie, hl]
  | none =>
      have hfind : List.find? (matchesKey t s a) st = none := hl
      simp [persistedUltimo, lookupSerie, List.find?_append, hfind, matchesKey]

theorem obtener_fst (st : SeriesState) (t s : String) (a : Nat) :
    (obtener_siguiente_numero st t s a).1 =
      (persistedUltimo st t s a).getD 0 + 1 := by
  unfold obtener_siguiente_numero persistedUltimo
  cases hl : lookupSerie st t s a <;> simp [hl]

theorem runCalls_fst (t s : String) (a n : Nat) :
    ∀ st : SeriesState,
      (runCalls st t s a n).1 =
        List.range' ((persistedUltimo st t s a).getD 0 + 1) n := by
  induction n with
  | zero => intro st; rfl
  | succ n ih =>
      intro st
      have h1 := obtener_fst st t s a
      have h2 := persistedUltimo_after st t s a
      have hrest := ih (obtener_siguiente_numero st t s a).2
      rw [h2] at hrest
      simp only [runCalls, List.range'_succ, hrest, h1, Option.getD_some]

/-! ## Claims C1, C5, C6 -/

/-- C1: for every sequence of calls of `obtener_siguiente_numero` with
the same `(tipo, serie, anio)` key, the returned values are strictly
increasing (hence no two calls ever return the same number), and after
every committed call the persisted `ultimo_numero` of the key equals the
value the call returned. -/
theorem claim_C1_numbering_exactly_once (st : SeriesState) (tipo serie : String)
    (anio n : Nat) :
    List.Pairwise (· < ·) (runCalls st tipo serie anio n).1
    ∧ (runCalls st tipo serie anio n).1.Nodup
    ∧ persistedUltimo (obtener_siguiente_numero st tipo serie anio).2 tipo serie anio =
        some (obtener_siguiente_numero st tipo serie anio).1 := by
  refine ⟨?_, ?_, persistedUltimo_after st tipo serie anio⟩
  · rw [runCalls_fst]
    exact List.pairwise_lt_range' _ _
  · rw [runCalls_fst]
    exact List.nodup_range' _ _

/-- C5: the formatted document number is
`prefix ++ serie ++ "-" ++ year ++ "-" ++ (sequence zero-padded to 4
digits)` with the fixed prefix table `presupuesto → "P"`,
`albaran → "AL"`, `factura → ""`; the first presupuesto of series `"P"`
in 2025 from an empty registry is `"PP-2025-0001"`. -/
theorem claim_C5_document_number_format (st : SeriesState) (tipo serie : String)
    (anio : Nat) :
    (generar_numero_documento st tipo serie anio).1 =
      prefijos tipo ++ serie ++ "-" ++ toString anio ++ "-" ++
        pad4 (obtener_siguiente_numero st tipo serie anio).1
    ∧ prefijos "presupuesto" = "P"
    ∧ prefijos "albaran" = "AL"
    ∧ prefijos "factura" = ""
    ∧ (generar_numero_documento [] "presupuesto" "P" 2025).1 = "PP-2025-0001" :=
  ⟨rfl, rfl, rfl, rfl, by decide⟩

/-- C6: the first call for a `(tipo, serie, anio)` key with no record
returns 1, whatever the registry holds for other keys (in particular for
the same `(tipo, serie)` in previous years). -/
theorem claim_C6_sequence_starts_at_one (st : SeriesState) (tipo serie : String)
    (anio : Nat) (h : lookupSerie st tipo serie anio = none) :
    (obtener_siguiente_numero st tipo serie anio).1 = 1 := by
  unfold obtener_siguiente_numero
  rw [h]

/-- Witness for C6: a registry whose last factura/A number of 2024 is 57
still hands out 1 as the first factura/A number of 2025. -/
theorem claim_C6_witness :
    lookupSerie [⟨"factura", "A", 57, 2024⟩] "factura" "A" 2025 = none
    ∧ (obtener_siguiente_numero [⟨"factura", "A", 57, 2024⟩] "factura" "A" 2025).1 = 1 :=
  ⟨by decide,
    claim_C6_sequence_starts_at_one [⟨"factura", "A", 57, 2024⟩] "factura" "A" 2025
      (by decide)⟩

/-! ## Lemmas: SQL-style updates -/

/-- Lemma: `find?` commutes with a row transformation that does not change the
selection predicate (an `UPDATE ... WHERE` touching only non-key
columns). -/
theorem find?_map_pred_preserved {α : Type} (l : List α) (p : α → Bool)
    (g : α → α) (hp : ∀ d, p (g d) = p d) :
    (l.map g).find? p = (l.find? p).map g := by
  rw [List.find?_map]
  have hpg : p ∘ g = p := funext hp
  rw [hpg]

/-! ## Claim C2 -/

/-- A database holding a single sale (id 1) already in the final state
`pagado`. -/
def dbVentaPagada : DB :=
  { ventas :=
      [{ id := 1
         cliente_id := some 1
         cliente_nombre := "ACME"
         cliente_nif := "B00000000"
         cliente_direccion := ""
         cliente_cp := ""
         cliente_ciudad := ""
         cliente_provincia := ""
         base_imponible := 100
         total_iva := 21
         irpf_porcentaje := 0
         total_irpf := 0
         total := 121
         metodo_pago := ""
         notas := ""
         estado := "pagado"
         fecha_creacion := 0
         fecha_modificacion := 0 }]
    venta_items := []
    documentos := []
    series := []
    seq_ventas := 2
    seq_items := 1
    seq_documentos := 1 }

/-- C2 counterexample: the state-advance operation of the code,
`Database.actualizar_estado_venta`, is *not* monotonic.  Calling it on a
sale in `pagado` (rank 5) with the lower-rank candidate `borrador`
(rank 0) is not a no-op: the stored state regresses to `borrador`. -/
theorem claim_C2_counterexample :
    rankEstado "borrador" = some 0
    ∧ rankEstado "pagado" = some 5
    ∧ (buscarVenta dbVentaPagada 1).map Venta.estado = some "pagado"
    ∧ (buscarVenta (actualizar_estado_venta dbVentaPagada 1 "borrador" 7) 1).map
        Venta.estado = some "borrador"
    ∧ ¬ actualizar_estado_venta dbVentaPagada 1 "borrador" 7 = dbVentaPagada := by
  refine ⟨rfl, rfl, rfl, rfl, fun heq => ?_⟩
  have h4 : (buscarVenta (actualizar_estado_venta dbVentaPagada 1 "borrador" 7) 1).map
      Venta.estado = some "borrador" := rfl
  rw [heq] at h4
  have h3 : (buscarVenta dbVentaPagada 1).map Venta.estado = some "pagado" := rfl
  rw [h3] at h4
  exact absurd (Option.some.inj h4) (by decide)

/-- C2 amended: `actualizar_estado_venta` overwrites the sale's state
with the candidate unconditionally — also when the candidate's rank is
lower than or equal to the current state's — and is idempotent for a
repeated target.  (The rank table `ESTADOS` exists but no rank check
guards the update.) -/
theorem claim_C2_amended_unconditional_update (db : DB) (venta_id : Nat)
    (e : String) (now : Nat) :
    buscarVenta (actualizar_estado_venta db venta_id e now) venta_id =
      (buscarVenta db venta_id).map
        (fun v => { v with estado := e, fecha_modificacion := now })
    ∧ actualizar_estado_venta (actualizar_estado_venta db venta_id e now)
        venta_id e now = actualizar_estado_venta db venta_id e now := by
  constructor
  · unfold actualizar_estado_venta buscarVenta
    rw [find?_map_pred_preserved _ _ _
      (fun v => by by_cases h : v.id = venta_id <;> simp [h])]
    cases hf : db.ventas.find? (fun v => v.id = venta_id) with
    | none => rfl
    | some v =>
        have hv : v.id = venta_id := by
          have := List.find?_some hf
          simpa using this
        simp [hv]
  · unfold actualizar_estado_venta
    simp only [List.map_map]
    congr 1
    apply List.map_congr_left
    intro v _
    by_cases h : v.id = venta_id <;> simp [Function.comp, h]

/-! ## Claim C3 -/

/-- C3: the totals of `actualizar_totales` satisfy the spec formulas for
any item list whose rows carry `subtotal = cantidad * precio_unitario`
(which is how `agregar_item` builds every row); the empty list gives
all-zero totals; and the example (one item, qty 10, price 50, VAT 21%,
withholding 15%) gives base 500, VAT 105, withholding 75, total 530. -/
theorem claim_C3_totals_formulas (items : List ItemData) (pct : ℚ)
    (h : ∀ i ∈ items, i.subtotal = i.cantidad * i.precio_unitario) :
    (actualizar_totales items pct).base_imponible =
        (items.map (fun i => i.cantidad * i.precio_unitario)).sum
    ∧ (actualizar_totales items pct).total_iva =
        (items.map (fun i => i.subtotal * i.iva / 100)).sum
    ∧ (actualizar_totales items pct).total_irpf =
        (actualizar_totales items pct).base_imponible * pct / 100
    ∧ (actualizar_totales items pct).total =
        (actualizar_totales items pct).base_imponible +
          (actualizar_totales items pct).total_iva -
          (actualizar_totales items pct).total_irpf
    ∧ actualizar_totales [] pct = ⟨0, 0, 0, 0⟩
    ∧ actualizar_totales [agregar_item_data "Consulting" 10 "unidad" 50 21] 15 =
        ⟨500, 105, 75, 530⟩ := by
  refine ⟨?_, rfl, rfl, rfl, ?_, ?_⟩
  · unfold actualizar_totales
    simp only
    rw [List.map_congr_left h]
  · unfold actualizar_totales
    simp
  · unfold actualizar_totales agregar_item_data
    simp only [List.map_cons, List.map_nil, List.sum_cons, List.sum_nil,
      Totales.mk.injEq]
    norm_num

/-- Witness for C3 at the example item (the subtotal hypothesis holds for
rows built by `agregar_item_data`). -/
theorem claim_C3_witness :
    (actualizar_totales [agregar_item_data "Consulting" 10 "unidad" 50 21]
        15).base_imponible =
      ([agregar_item_data "Consulting" 10 "unidad" 50 21].map
        (fun i => i.cantidad * i.precio_unitario)).sum :=
  (claim_C3_totals_formulas [agregar_item_data "Consulting" 10 "unidad" 50 21]
    15 (by intro i hi; rw [List.mem_singleton] at hi; rw [hi]; rfl)).1

/-! ## Lemmas: `crear_venta` -/

/-- The `venta_items` rows inserted by `crear_venta`. -/
def crearVentaRows (items : List ItemData) (seqi vid : Nat) : List VentaItem :=
  (items.enum).map (fun p =>
    ({ id := seqi + p.1
       venta_id := vid
       descripcion := p.2.descripcion
       cantidad := p.2.cantidad
       unidad := p.2.unidad
       precio_unitario := p.2.precio_unitario
       iva_porcentaje := p.2.iva
       subtotal := p.2.subtotal } : VentaItem))

theorem crear_venta_venta_items (db : DB) (vd : VentaData)
    (items : List ItemData) (now : Nat) :
    (crear_venta db vd items now).2.venta_items =
      db.venta_items ++ crearVentaRows items db.seq_items db.seq_ventas := rfl

/-- Any projection of the inserted rows that only reads the copied item
columns equals the corresponding projection of the input items. -/
theorem crearVentaRows_map {α : Type} (items : List ItemData) (seqi vid : Nat)
    (g : VentaItem → α) (G : ItemData → α)
    (hg : ∀ (n : Nat) (i : ItemData),
      g { id := seqi + n
          venta_id := vid
          descripcion := i.descripcion
          cantidad := i.cantidad
          unidad := i.unidad
          precio_unitario := i.precio_unitario
          iva_porcentaje := i.iva
          subtotal := i.subtotal } = G i) :
    (crearVentaRows items seqi vid).map g = items.map G := by
  unfold crearVentaRows
  rw [List.map_map]
  have : ∀ p ∈ items.enum,
      (g ∘ fun p : Nat × ItemData =>
        ({ id := seqi + p.1
           venta_id := vid
           descripcion := p.2.descripcion
           cantidad := p.2.cantidad
           unidad := p.2.unidad
           precio_unitario := p.2.precio_unitario
           iva_porcentaje := p.2.iva
           subtotal := p.2.subtotal } : VentaItem)) p = (G ∘ Prod.snd) p :=
    fun p _ => hg p.1 p.2
  rw [List.map_congr_left this, ← List.map_map, List.enum_map_snd]

theorem buscarVenta_crear_venta (db : DB) (vd : VentaData)
    (items : List ItemData) (now : Nat)
    (hwf : ∀ v ∈ db.ventas, v.id < db.seq_ventas) :
    buscarVenta (crear_venta db vd items now).2 (crear_venta db vd items now).1 =
      some { id := db.seq_ventas
             cliente_id := vd.cliente_id
             cliente_nombre := vd.cliente_nombre
             cliente_nif := vd.cliente_nif
             cliente_direccion := vd.cliente_direccion
             cliente_cp := vd.cliente_cp
             cliente_ciudad := vd.cliente_ciudad
             cliente_provincia := vd.cliente_provincia
             base_imponible := vd.base_imponible
             total_iva := vd.total_iva
             irpf_porcentaje := vd.irpf_porcentaje
             total_irpf := vd.total_irpf
             total := vd.total
             metodo_pago := vd.metodo_pago
             notas := vd.notas
             estado := vd.estado
             fecha_creacion := now
             fecha_modificacion := now } := by
  unfold buscarVenta crear_venta
  simp only
  rw [List.find?_append]
  have hnone : db.ventas.find? (fun v => v.id = db.seq_ventas) = none := by
    rw [List.find?_eq_none]
    intro v hv
    simp [Nat.ne_of_lt (hwf v hv)]
  rw [hnone]
  simp

theorem items_of_crear_venta (db : DB) (vd : VentaData)
    (items : List ItemData) (now : Nat)
    (hwf : ∀ it ∈ db.venta_items, it.venta_id < db.seq_ventas) :
    (crear_venta db vd items now).2.venta_items.filter
        (fun it => it.venta_id = (crear_venta db vd items now).1) =
      crearVentaRows items db.seq_items db.seq_ventas := by
  have h1 : (crear_venta db vd items now).1 = db.seq_ventas := rfl
  rw [h1, crear_venta_venta_items, List.filter_append]
  have hold : db.venta_items.filter (fun it => it.venta_id = db.seq_ventas) = [] := by
    rw [List.filter_eq_nil_iff]
    intro it hit
    simp [Nat.ne_of_lt (hwf it hit)]
  have hnew : (crearVentaRows items db.seq_items db.seq_ventas).filter
      (fun it => it.venta_id = db.seq_ventas) =
      crearVentaRows items db.seq_items db.seq_ventas := by
    rw [List.filter_eq_self]
    intro it hit
    unfold crearVentaRows at hit
    rw [List.mem_map] at hit
    obtain ⟨p, _, hp⟩ := hit
    rw [← hp]
    simp
  rw [hold, hnew, List.nil_append]

/-! ## Claim C4 -/

/-- C4: the persistence path of `guardar_y_generar` recomputes the totals
from the item list and stores both together through `crear_venta`, so the
persisted sale's monetary columns always equal a fresh recomputation from
its persisted item rows; in particular
`total = base_imponible + total_iva − total_irpf`. -/
theorem claim_C4_no_drift (db : DB) (cliente : VentaData) (items : List ItemData)
    (pct : ℚ) (now : Nat) (hwf : db.WF) :
    (obtener_venta (guardar_venta_con_totales db cliente items pct now).2
        (guardar_venta_con_totales db cliente items pct now).1).isSome = true
    ∧ ∀ vc, obtener_venta (guardar_venta_con_totales db cliente items pct now).2
          (guardar_venta_con_totales db cliente items pct now).1 = some vc →
        recomputarDesdeFilas vc.items vc.venta.irpf_porcentaje =
          ⟨vc.venta.base_imponible, vc.venta.total_iva, vc.venta.total_irpf,
            vc.venta.total⟩
        ∧ vc.venta.total =
            vc.venta.base_imponible + vc.venta.total_iva - vc.venta.total_irpf := by
  have hwfv : ∀ v ∈ db.ventas, v.id < db.seq_ventas := hwf.1
  have hwfi : ∀ it ∈ db.venta_items, it.venta_id < db.seq_ventas :=
    fun it hit => (hwf.2.1 it hit).2
  unfold guardar_venta_con_totales
  simp only
  unfold obtener_venta
  rw [buscarVenta_crear_venta _ _ _ _ hwfv]
  simp only [Option.isSome_some, true_and]
  intro vc hvc
  rw [Option.some.injEq] at hvc
  subst hvc
  simp only
  rw [items_of_crear_venta _ _ _ _ hwfi]
  have hbase : (crearVentaRows items db.seq_items db.seq_ventas).map
      (fun r => r.subtotal) = items.map (fun i => i.subtotal) :=
    crearVentaRows_map items _ _ _ _ (fun n i => rfl)
  have hiva : (crearVentaRows items db.seq_items db.seq_ventas).map
      (fun r => r.subtotal * r.iva_porcentaje / 100) =
      items.map (fun i => i.subtotal * i.iva / 100) :=
    crearVentaRows_map items _ _ _ _ (fun n i => rfl)
  constructor
  · unfold recomputarDesdeFilas actualizar_totales
    simp only [Totales.mk.injEq, hbase, hiva]
    try refine ⟨rfl, rfl, rfl, rfl⟩
  · rfl

/-- Witness for C4: the empty database is well-formed and saving the
example item through the flow yields a retrievable sale. -/
theorem claim_C4_witness :
    DB.empty.WF
    ∧ (obtener_venta
        (guardar_venta_con_totales DB.empty
          ⟨none, "ACME", "B00000000", "", "", "", "", 0, 0, 0, 0, 0, "", "", "borrador"⟩
          [agregar_item_data "Consulting" 10 "unidad" 50 21] 15 0).2
        (guardar_venta_con_totales DB.empty
          ⟨none, "ACME", "B00000000", "", "", "", "", 0, 0, 0, 0, 0, "", "", "borrador"⟩
          [agregar_item_data "Consulting" 10 "unidad" 50 21] 15 0).1).isSome = true :=
  ⟨by decide,
    (claim_C4_no_drift DB.empty
      ⟨none, "ACME", "B00000000", "", "", "", "", 0, 0, 0, 0, 0, "", "", "borrador"⟩
      [agregar_item_data "Consulting" 10 "unidad" 50 21] 15 0 (by decide)).1⟩

/-! ## Claim C8 -/

/-- A database with one sale (id 1), one item and one generated document
whose PDF lives at `"a.pdf"`. -/
def dbConDocumento : DB :=
  { ventas :=
      [{ id := 1
         cliente_id := some 1
         cliente_nombre := "ACME"
         cliente_nif := "B00000000"
         cliente_direccion := ""
         cliente_cp := ""
         cliente_ciudad := ""
         cliente_provincia := ""
         base_imponible := 500
         total_iva := 105
         irpf_porcentaje := 15
         total_irpf := 75
         total := 530
         metodo_pago := ""
         notas := ""
         estado := "facturado"
         fecha_creacion := 0
         fecha_modificacion := 0 }]
    venta_items :=
      [{ id := 1
         venta_id := 1
         descripcion := "Consulting"
         cantidad := 10
         unidad := "unidad"
         precio_unitario := 50
         iva_porcentaje := 21
         subtotal := 500 }]
    documentos :=
      [{ id := 1
         venta_id := 1
         tipo := "factura"
         numero := "A-2025-0001"
         fecha_emision := "01/01/2025"
         fecha_validez := none
         ruta_pdf := some "a.pdf" }]
    series := [⟨"factura", "A", 1, 2025⟩]
    seq_ventas := 2
    seq_items := 2
    seq_documentos := 2 }

/-- C8 counterexample: `eliminar_venta` does *not* return the referenced
file paths — the Python function has no `return` statement (its value is
`None`); it removes the files from disk itself.  Concretely, deleting
sale 1, whose single document references `"a.pdf"`, returns `None` while
the operation itself has removed `"a.pdf"` from the disk. -/
theorem claim_C8_counterexample :
    rutasDeVenta dbConDocumento 1 = ["a.pdf"]
    ∧ (eliminar_venta dbConDocumento ["a.pdf", "b.pdf"] [] 1).ret = none
    ∧ (eliminar_venta dbConDocumento ["a.pdf", "b.pdf"] [] 1).disco = ["b.pdf"] :=
  ⟨rfl, rfl, rfl⟩

/-- C8 amended: `eliminar_venta` removes the sale, all its line items and
all its document records (and nothing else); it collects the non-null PDF
paths referenced by those records and removes those files from disk
itself, swallowing per-path failures, instead of returning them (its
return value is `None`); and the database-level deletion is identical
whatever the disk contents or the set of failing removals. -/
theorem claim_C8_amended_cascade_delete (db : DB) (disco fallos : List String)
    (venta_id : Nat) :
    (∀ v, v ∈ (eliminar_venta db disco fallos venta_id).db.ventas ↔
        (v ∈ db.ventas ∧ ¬ v.id = venta_id))
    ∧ (∀ it, it ∈ (eliminar_venta db disco fallos venta_id).db.venta_items ↔
        (it ∈ db.venta_items ∧ ¬ it.venta_id = venta_id))
    ∧ (∀ d, d ∈ (eliminar_venta db disco fallos venta_id).db.documentos ↔
        (d ∈ db.documentos ∧ ¬ d.venta_id = venta_id))
    ∧ (∀ disco₂ fallos₂ : List String,
        (eliminar_venta db disco₂ fallos₂ venta_id).db =
          (eliminar_venta db disco fallos venta_id).db)
    ∧ (∀ p, p ∈ (eliminar_venta db disco fallos venta_id).disco ↔
        (p ∈ disco ∧ ¬ (p ∈ rutasDeVenta db venta_id ∧ p ∉ fallos)))
    ∧ (eliminar_venta db disco fallos venta_id).ret = none := by
  refine ⟨?_, ?_, ?_, fun _ _ => rfl, ?_, rfl⟩
  · intro v
    simp [eliminar_venta, List.mem_filter]
  · intro it
    simp [eliminar_venta, List.mem_filter]
  · intro d
    simp [eliminar_venta, List.mem_filter]
  · intro p
    simp [eliminar_venta, List.mem_filter]
    tauto

/-! ## Claim C9 -/

/-- C9 counterexample: `registrar_documento` keeps a single row per
`(venta_id, tipo)` pair, but a re-registration *overwrites* the stored
number and issuance date with the newly supplied values — it does not
yield the first issuance's number and date.  Registering
`("A-2025-0001", "01/01/2025")` and then `("A-2025-0002", "02/01/2025")`
for the same `(sale 1, factura)` leaves `"A-2025-0002"` of
`"02/01/2025"`, not the first values. -/
theorem claim_C9_counterexample :
    (obtener_documento_de_venta
        (registrar_documento DB.empty 1 "factura" "A-2025-0001" "01/01/2025"
          none none).2 1 "factura").map Documento.numero = some "A-2025-0001"
    ∧ (obtener_documento_de_venta
        (registrar_documento
          (registrar_documento DB.empty 1 "factura" "A-2025-0001" "01/01/2025"
            none none).2 1 "factura" "A-2025-0002" "02/01/2025" none none).2
        1 "factura").map Documento.numero = some "A-2025-0002"
    ∧ (obtener_documento_de_venta
        (registrar_documento
          (registrar_documento DB.empty 1 "factura" "A-2025-0001" "01/01/2025"
            none none).2 1 "factura" "A-2025-0002" "02/01/2025" none none).2
        1 "factura").map Documento.fecha_emision = some "02/01/2025"
    ∧ ¬ ("A-2025-0002" = "A-2025-0001") :=
  ⟨rfl, rfl, rfl, by decide⟩

/-- C9 amended: after any sequence of registrations, at most one document
record exists per `(sale, type)` pair — registering a pair that already
has a record updates that record in place (same id, no second row, table
length unchanged) — but the update overwrites the stored number,
issuance date, validity date and path with the newly supplied values
instead of keeping the first issuance's. -/
theorem claim_C9_amended_upsert (db : DB) (venta_id : Nat)
    (tipo numero fecha_emision : String) (fecha_validez ruta_pdf : Option String)
    (h : AtMostOnePerTipo db.documentos) :
    AtMostOnePerTipo
        (registrar_documento db venta_id tipo numero fecha_emision fecha_validez
          ruta_pdf).2.documentos
    ∧ (∀ d₀, obtener_documento_de_venta db venta_id tipo = some d₀ →
        obtener_documento_de_venta
            (registrar_documento db venta_id tipo numero fecha_emision
              fecha_validez ruta_pdf).2 venta_id tipo =
          some { d₀ with
                   numero := numero
                   fecha_emision := fecha_emision
                   fecha_validez := fecha_validez
                   ruta_pdf := ruta_pdf }
        ∧ (registrar_documento db venta_id tipo numero fecha_emision
            fecha_validez ruta_pdf).2.documentos.length =
            db.documentos.length) := by
  unfold registrar_documento obtener_documento_de_venta
  cases hfind : db.documentos.find?
      (fun d => d.venta_id = venta_id ∧ d.tipo = tipo) with
  | some existente =>
      simp only
      constructor
      · unfold AtMostOnePerTipo at h ⊢
        rw [List.pairwise_map]
        refine h.imp ?_
        intro d₁ d₂ hR hcontra
        apply hR
        by_cases h1 : d₁.id = existente.id <;> by_cases h2 : d₂.id = existente.id <;>
          simpa [h1, h2] using hcontra
      · intro d₀ hd₀
        rw [Option.some.injEq] at hd₀
        subst hd₀
        constructor
        · rw [find?_map_pred_preserved _ _ _
            (fun d => by by_cases hid : d.id = existente.id <;> simp [hid])]
          rw [hfind]
          have : existente.id = existente.id := rfl
          simp
        · exact (List.length_map _ _).symm ▸ rfl
  | none =>
      simp only
      constructor
      · unfold AtMostOnePerTipo at h ⊢
        rw [List.pairwise_append]
        refine ⟨h, List.pairwise_singleton _ _, ?_⟩
        intro a ha b hb
        rw [List.mem_singleton] at hb
        subst hb
        rw [List.find?_eq_none] at hfind
        have := hfind a ha
        simp only [decide_eq_true_eq] at this
        intro hcontra
        exact this (by simpa using hcontra)
      · intro d₀ hd₀
        exact absurd hd₀ (by simp)

/-- Witness for C9: a first registration satisfies the uniqueness
invariant, and the second registration for the same pair preserves it. -/
theorem claim_C9_witness :
    AtMostOnePerTipo
        (registrar_documento DB.empty 1 "factura" "A-2025-0001" "01/01/2025"
          none none).2.documentos
    ∧ AtMostOnePerTipo
        (registrar_documento
          (registrar_documento DB.empty 1 "factura" "A-2025-0001" "01/01/2025"
            none none).2 1 "factura" "A-2025-0002" "02/01/2025" none none).2.documentos :=
  ⟨by decide,
    (claim_C9_amended_upsert
      (registrar_documento DB.empty 1 "factura" "A-2025-0001" "01/01/2025"
        none none).2 1 "factura" "A-2025-0002" "02/01/2025" none none
      (by decide)).1⟩

/-! ## Claim C10 -/

/-- C10: `obtener_venta` returns `none` exactly when no sale with the id
exists (a missing id never raises), and otherwise the returned record is
the found sale extended with exactly its own item rows under `items` and,
under `documentos`, a by-type mapping whose every hit is one of the
sale's own document rows of that type (each type key maps to at most one
document, the mapping being `Option`-valued). -/
theorem claim_C10_obtener_venta (db : DB) (venta_id : Nat) :
    (obtener_venta db venta_id = none ↔ buscarVenta db venta_id = none)
    ∧ ∀ vc, obtener_venta db venta_id = some vc →
        (buscarVenta db venta_id = some vc.venta
         ∧ (∀ it, it ∈ vc.items ↔ (it ∈ db.venta_items ∧ it.venta_id = venta_id))
         ∧ (∀ tipo d, vc.documentos tipo = some d →
             d ∈ db.documentos ∧ d.venta_id = venta_id ∧ d.tipo = tipo)) := by
  unfold obtener_venta
  cases hb : buscarVenta db venta_id with
  | none =>
      exact ⟨by simp, fun vc h => absurd h (by simp)⟩
  | some v =>
      constructor
      · simp
      · intro vc hvc
        rw [Option.some.injEq] at hvc
        subst hvc
        refine ⟨rfl, ?_, ?_⟩
        · intro it
          simp [List.mem_filter]
        · intro tipo d hd
          have hmem := List.mem_of_mem_getLast? hd
          rw [List.mem_filter] at hmem
          have hprops := hmem.2
          simp only [decide_eq_true_eq] at hprops
          exact ⟨hmem.1, hprops.1, hprops.2⟩

/-- Witness for C10: on the concrete database with one sale, a missing id
yields `none` and the present id yields the sale's own single item row. -/
theorem claim_C10_witness :
    obtener_venta dbConDocumento 7 = none
    ∧ (obtener_venta dbConDocumento 1).map VentaCompleta.items =
        some
          [{ id := 1
             venta_id := 1
             descripcion := "Consulting"
             cantidad := 10
             unidad := "unidad"
             precio_unitario := 50
             iva_porcentaje := 21
             subtotal := 500 }] :=
  ⟨(claim_C10_obtener_venta dbConDocumento 7).1.mpr rfl, rfl⟩

/-! ## Claim C7 -/

/-- The document record stored by `guardar_y_generar` before the render
is attempted. -/
def docGuardado (st : FacState) (tipo serie : String) (anio : Nat)
    (items : List ItemData) (pct : ℚ) (fe : String) (fv : Option String) :
    DocRecord :=
  { id := st.seq_docs
    tipo := tipo
    numero := (generar_numero_documento st.series tipo serie anio).1
    fecha_emision := fe
    fecha_validez := fv
    base_imponible := (actualizar_totales items pct).base_imponible
    total_iva := (actualizar_totales items pct).total_iva
    irpf_porcentaje := pct
    total_irpf := (actualizar_totales items pct).total_irpf
    total := (actualizar_totales items pct).total
    estado := "pendiente"
    ruta_pdf := none
    items := items }

theorem guardar_y_generar_fail_eq (st : FacState) (tipo serie : String)
    (anio : Nat) (items : List ItemData) (pct : ℚ) (fe : String)
    (fv : Option String) (base : String) :
    guardar_y_generar st tipo serie anio items pct fe fv base false =
      { st := { series := (obtener_siguiente_numero st.series tipo serie anio).2
                docs := st.docs ++ [docGuardado st tipo serie anio items pct fe fv]
                seq_docs := st.seq_docs + 1 }
        documento_id := st.seq_docs
        numero := (generar_numero_documento st.series tipo serie anio).1
        error := some "Error al generar PDF" } := rfl

theorem obtener_documento_guardado (st : FacState) (tipo serie : String)
    (anio : Nat) (items : List ItemData) (pct : ℚ) (fe : String)
    (fv : Option String) (base : String)
    (hwf : ∀ d ∈ st.docs, d.id < st.seq_docs) :
    obtener_documento
        (guardar_y_generar st tipo serie anio items pct fe fv base false).st
        (guardar_y_generar st tipo serie anio items pct fe fv base false).documento_id =
      some (docGuardado st tipo serie anio items pct fe fv) := by
  rw [guardar_y_generar_fail_eq]
  unfold obtener_documento
  simp only
  rw [List.find?_append]
  have hnone : st.docs.find? (fun d => d.id = st.seq_docs) = none := by
    rw [List.find?_eq_none]
    intro d hd
    simp [Nat.ne_of_lt (hwf d hd)]
  rw [hnone]
  simp [docGuardado]

/-- C7 counterexample: a failed render does *not* leave the numbering
registry untouched.  From an empty state, `guardar_y_generar` with a
failing render surfaces the error, yet the `(factura, A, 2025)` key —
absent beforehand — has been created and committed at 1: a sequence
number was consumed before the render. -/
theorem claim_C7_counterexample :
    persistedUltimo (FacState.mk [] [] 1).series "factura" "A" 2025 = none
    ∧ (guardar_y_generar ⟨[], [], 1⟩ "factura" "A" 2025 [] 0 "01/01/2025" none
        "Documentos" false).error = some "Error al generar PDF"
    ∧ persistedUltimo
        (guardar_y_generar ⟨[], [], 1⟩ "factura" "A" 2025 [] 0 "01/01/2025" none
          "Documentos" false).st.series "factura" "A" 2025 = some 1 :=
  ⟨rfl, rfl, rfl⟩

/-- C7 amended: on render failure `guardar_y_generar` surfaces the error,
but the sequence number has already been consumed and committed *before*
the render; the stored state is nevertheless not corrupted: the document
record is persisted with that issued number (and no PDF path), and the
separate re-render operation reads the stored record — it re-renders at
the path derived from the *stored* number, touching the numbering
registry in no case — so the previously-issued number is reused on retry
rather than a new one being minted. -/
theorem claim_C7_amended_render_failure (st : FacState) (tipo serie : String)
    (anio : Nat) (items : List ItemData) (pct : ℚ) (fe : String)
    (fv : Option String) (base : String)
    (hwf : ∀ d ∈ st.docs, d.id < st.seq_docs) :
    (guardar_y_generar st tipo serie anio items pct fe fv base false).error =
        some "Error al generar PDF"
    ∧ persistedUltimo
        (guardar_y_generar st tipo serie anio items pct fe fv base
          false).st.series tipo serie anio =
        some (obtener_siguiente_numero st.series tipo serie anio).1
    ∧ (obtener_documento
          (guardar_y_generar st tipo serie anio items pct fe fv base false).st
          (guardar_y_generar st tipo serie anio items pct fe fv base
            false).documento_id).map DocRecord.numero =
        some (guardar_y_generar st tipo serie anio items pct fe fv base
          false).numero
    ∧ (obtener_documento
          (guardar_y_generar st tipo serie anio items pct fe fv base false).st
          (guardar_y_generar st tipo serie anio items pct fe fv base
            false).documento_id).map DocRecord.ruta_pdf = some none
    ∧ (generar_nuevo_pdf
          (guardar_y_generar st tipo serie anio items pct fe fv base false).st
          (guardar_y_generar st tipo serie anio items pct fe fv base
            false).documento_id base anio true).1.series =
        (guardar_y_generar st tipo serie anio items pct fe fv base
          false).st.series
    ∧ (generar_nuevo_pdf
          (guardar_y_generar st tipo serie anio items pct fe fv base false).st
          (guardar_y_generar st tipo serie anio items pct fe fv base
            false).documento_id base anio false).1.series =
        (guardar_y_generar st tipo serie anio items pct fe fv base
          false).st.series
    ∧ (generar_nuevo_pdf
          (guardar_y_generar st tipo serie anio items pct fe fv base false).st
          (guardar_y_generar st tipo serie anio items pct fe fv base
            false).documento_id base anio true).1 =
        actualizar_ruta_pdf
          (guardar_y_generar st tipo serie anio items pct fe fv base false).st
          (guardar_y_generar st tipo serie anio items pct fe fv base
            false).documento_id
          (obtener_ruta_documento base tipo
            (guardar_y_generar st tipo serie anio items pct fe fv base
              false).numero anio) := by
  have hdoc := obtener_documento_guardado st tipo serie anio items pct fe fv base hwf
  refine ⟨rfl, persistedUltimo_after st.series tipo serie anio, ?_, ?_, ?_, ?_, ?_⟩
  · rw [hdoc]; rfl
  · rw [hdoc]; rfl
  · unfold generar_nuevo_pdf
    rw [hdoc]
    rfl
  · unfold generar_nuevo_pdf
    rw [hdoc]
    rfl
  · unfold generar_nuevo_pdf
    rw [hdoc]
    rfl

/-- Witness for C7 from the empty state. -/
theorem claim_C7_witness :
    (guardar_y_generar ⟨[], [], 1⟩ "factura" "A" 2025
        [agregar_item_data "Consulting" 10 "unidad" 50 21] 15 "01/01/2025" none
        "Documentos" false).error = some "Error al generar PDF" :=
  (claim_C7_amended_render_failure ⟨[], [], 1⟩ "factura" "A" 2025
    [agregar_item_data "Consulting" 10 "unidad" 50 21] 15 "01/01/2025" none
    "Documentos" (by simp)).1

end SimpleFact
